import Mathlib

/-!
# War: territory map and attack resolution (`war.c`)

A shallow embedding of `war.c`.

* The map is the C array `Territorio mapa[NUM_TERRITORIOS]`, embedded as a list of
  records; a well-formed map has length `NUM_TERRITORIOS`.
* `int` is the 32-bit type: its values are the `Int`s from `INT_MIN` to `INT_MAX`
  (`ehInt`).  The arithmetic of the program on them is `x--` and `rand() % 6 + 1`.
  `x--` is `decrementarInt`: `x - 1`, except at `INT_MIN`, where `x - 1` is not an
  `int` (C leaves the result undefined) and the compiled program wraps to `INT_MAX`.
* Console input is taken after conversion: the `Int` arguments of `faseDeAtaque`,
  `Rodada` and `Cadastro` are the `int` values that `scanf("%d")` stored, not the
  numerals typed, and the strings are what `fgets` stored.  Theorems that range over
  such values bound them by `ehInt`.  The two `rand()` results of a battle are
  explicit arguments too; console output (`printf`) is returned as a list of
  `Mensagem`.
* `territorio[i - 1]` is embedded by `territorioEm territorio i`; every theorem
  below uses it with `1 ≤ i ≤ NUM_TERRITORIOS` only, where the C access is defined.
-/

namespace War

/-- The constant `#define NUM_TERRITORIOS 5`. -/
def NUM_TERRITORIOS : Nat := 5

/-- The least value of the 32-bit type `int`. -/
def INT_MIN : Int := -2147483648

/-- The greatest value of the 32-bit type `int`. -/
def INT_MAX : Int := 2147483647

/-- The values of type `int`: what an `int` object, such as the target of
`scanf("%d")`, can hold. -/
def ehInt (x : Int) : Prop := INT_MIN ≤ x ∧ x ≤ INT_MAX

instance (x : Int) : Decidable (ehInt x) := by
  unfold ehInt
  infer_instance

/-- The reduction of an integer modulo `2 ^ 32` into the range of `int`. -/
def wrapInt (x : Int) : Int := (x - INT_MIN) % 4294967296 + INT_MIN

/-- The statement `x--` on an `int`: `x - 1`, and at `INT_MIN`, where `x - 1` is below
the range, the wrapped value `INT_MAX`. -/
def decrementarInt (x : Int) : Int := if x = INT_MIN then INT_MAX else x - 1

/-- The record `Territorio`: name, army colour (owner), number of troops (an `int`). -/
structure Territorio where
  nome : String
  cor : String
  num_tropas : Int
deriving DecidableEq, Repr, Inhabited

/-- The map: the array of territories. -/
abbrev Mapa := List Territorio

/-- The lines the attack phase prints, one constructor per `printf`. -/
inductive Mensagem where
  | perguntaAtacante
  | territorioInvalido
  | tropasInsuficientes
  | perguntaAtacado
  | dadoAtacante (valor : Int)
  | dadoAtacado (valor : Int)
deriving DecidableEq, Repr

/-- The array position of the 1-based number `i`: the `i - 1` of `territorio[i - 1]`. -/
def indice (i : Int) : Nat := (i - 1).toNat

/-- The read `territorio[i - 1]`. -/
def territorioEm (territorio : Mapa) (i : Int) : Territorio :=
  territorio.getD (indice i) default

/-- The read `territorio[i - 1].num_tropas`. -/
def tropas (territorio : Mapa) (i : Int) : Int := (territorioEm territorio i).num_tropas

/-- The read `territorio[i - 1].cor`. -/
def corDe (territorio : Mapa) (i : Int) : String := (territorioEm territorio i).cor

/-- The read `territorio[i - 1].nome`. -/
def nomeDe (territorio : Mapa) (i : Int) : String := (territorioEm territorio i).nome

/-- The write `territorio[i - 1].num_tropas = v`. -/
def definirTropas (territorio : Mapa) (i : Int) (v : Int) : Mapa :=
  territorio.set (indice i) { territorioEm territorio i with num_tropas := v }

/-- The write `strcpy(territorio[i - 1].cor, c)`. -/
def definirCor (territorio : Mapa) (i : Int) (c : String) : Mapa :=
  territorio.set (indice i) { territorioEm territorio i with cor := c }

/-- The statement `territorio[i - 1].num_tropas--`. -/
def decrementarTropas (territorio : Mapa) (i : Int) : Mapa :=
  definirTropas territorio i (decrementarInt (tropas territorio i))

/-- The die `rand() % 6 + 1`, for the value `r` that `rand()` returned. -/
def dado (r : Nat) : Int := (r : Int) % 6 + 1

/-- One line of `calloc`ed storage: all bytes zero. -/
def territorioZerado : Territorio := ⟨"", "", 0⟩

/-- The function `alocarMapa`, when `calloc` succeeds. -/
def alocarMapa : Mapa := List.replicate NUM_TERRITORIOS territorioZerado

/-- What the three reads of one pass of the loop of `inicializarTerritorios` stored:
the strings `fgets` left in `nome` and `cor` (at most `MAX_STRING - 1` characters of
the line, its newline included when it fits) and the `int` that `scanf("%d")` left in
`num_tropas`. -/
structure Cadastro where
  nome : String
  cor : String
  num_tropas : Int
deriving DecidableEq, Repr

/-- The function `inicializarTerritorios`: for `i = 0 .. NUM_TERRITORIOS - 1` the name,
the colour and the troop number read for territory `i` are stored in `territorio[i]`;
no value is checked. -/
def inicializarTerritorios (territorio : Mapa) (entrada : Nat → Cadastro) : Mapa :=
  (List.range NUM_TERRITORIOS).foldl
    (fun t i => t.set i ⟨(entrada i).nome, (entrada i).cor, (entrada i).num_tropas⟩)
    territorio

/-- The function `simularAtaque`; `r1` and `r2` are the results of its two `rand()` calls. -/
def simularAtaque (atacante atacado : Int) (territorio : Mapa) (r1 r2 : Nat) :
    Mapa × List Mensagem :=
  let dadoAtacante := dado r1
  let dadoAtacado := dado r2
  let saida := [Mensagem.dadoAtacante dadoAtacante, Mensagem.dadoAtacado dadoAtacado]
  if dadoAtacante ≤ dadoAtacado then
    (decrementarTropas territorio atacante, saida)
  else
    let territorio := decrementarTropas territorio atacado
    if tropas territorio atacado ≤ 0 then
      let territorio := definirCor territorio atacado (corDe territorio atacante)
      let territorio := definirTropas territorio atacado 1
      let territorio := decrementarTropas territorio atacante
      (territorio, saida)
    else
      (territorio, saida)

/-- The function `faseDeAtaque`; `atacante` and `atacado` are the `int` values that the
two `scanf("%d")` calls stored (the second is read only when the first passed both
checks), `r1` and `r2` the results of `rand()`. -/
def faseDeAtaque (territorio : Mapa) (atacante atacado : Int) (r1 r2 : Nat) :
    Mapa × List Mensagem :=
  if atacante < 1 ∨ atacante > (NUM_TERRITORIOS : Int) then
    (territorio, [Mensagem.perguntaAtacante, Mensagem.territorioInvalido])
  else if tropas territorio atacante < 2 then
    (territorio, [Mensagem.perguntaAtacante, Mensagem.tropasInsuficientes])
  else if atacado < 1 ∨ atacado > (NUM_TERRITORIOS : Int) then
    (territorio,
      [Mensagem.perguntaAtacante, Mensagem.perguntaAtacado, Mensagem.territorioInvalido])
  else
    let r := simularAtaque atacante atacado territorio r1 r2
    (r.1, [Mensagem.perguntaAtacante, Mensagem.perguntaAtacado] ++ r.2)

/-- What is read, and what `rand()` returns, in one round of the loop of `main`: the
`int` values stored by `scanf("%d")` for the menu option and for the two numbers of
the attack phase. -/
structure Rodada where
  opcao : Int
  atacante : Int
  atacado : Int
  r1 : Nat
  r2 : Nat
deriving DecidableEq, Repr

/-- The `do ... while (1)` loop of `main` over the rounds read: option `0` leaves the
loop (as does the end of the input, which leaves `opcao` at `0`); any other option
runs `faseDeAtaque`.  The output of `exibirMapa` and of the menu, which read the map
only, is left out. -/
def lacoPrincipal (mapa : Mapa) : List Rodada → Mapa × List Mensagem
  | [] => (mapa, [])
  | j :: js =>
    if j.opcao = 0 then (mapa, [])
    else
      let r := faseDeAtaque mapa j.atacante j.atacado j.r1 j.r2
      let s := lacoPrincipal r.1 js
      (s.1, r.2 ++ s.2)

/-- The function `main` when the allocation succeeds: initialise, then loop. -/
def main (entrada : Nat → Cadastro) (rodadas : List Rodada) : Mapa × List Mensagem :=
  lacoPrincipal (inicializarTerritorios alocarMapa entrada) rodadas

/-- The sum of the troop numbers of the map. -/
def somaTropas (m : Mapa) : Int := (m.map (fun t => t.num_tropas)).sum

/-- The number of battles a piece of output shows: one attacker-die line per call of
`simularAtaque`. -/
def ataquesResolvidos (saida : List Mensagem) : Nat :=
  saida.countP (fun s => match s with | Mensagem.dadoAtacante _ => true | _ => false)

/-- Whether a line of output is one of the two die lines of `simularAtaque`. -/
def linhaDeDado : Mensagem → Bool
  | Mensagem.dadoAtacante _ => true
  | Mensagem.dadoAtacado _ => true
  | _ => false

/-- The output shows no call of `simularAtaque`: it has no die line. -/
def semDados (saida : List Mensagem) : Prop :=
  ∀ s ∈ saida, linhaDeDado s = false

instance (saida : List Mensagem) : Decidable (semDados saida) := by
  unfold semDados
  infer_instance

/-- The conquest path of `simularAtaque`: the attacker's die is the higher one and the defender's
troop number is `≤ 0` after its decrement. -/
def caminhoConquista (atacado : Int) (territorio : Mapa) (r1 r2 : Nat) : Prop :=
  ¬ dado r1 ≤ dado r2 ∧ tropas (decrementarTropas territorio atacado) atacado ≤ 0

instance (atacado : Int) (territorio : Mapa) (r1 r2 : Nat) :
    Decidable (caminhoConquista atacado territorio r1 r2) := by
  unfold caminhoConquista
  infer_instance

/-- The map of the scenario: A (Red, 5 troops) is number 1, B (Blue, 1 troop) number 2. -/
def cenario : Mapa :=
  [⟨"A", "Red", 5⟩, ⟨"B", "Blue", 1⟩, ⟨"C", "Green", 3⟩, ⟨"D", "Yellow", 2⟩, ⟨"E", "Black", 4⟩]

/-- Entries for `inicializarTerritorios` with a negative troop number: territory 3
gets `-3`, the others 5. -/
def cadastroNegativo (i : Nat) : Cadastro :=
  ⟨"T", "Cor", if i = 2 then -3 else 5⟩

/-- Entries for `inicializarTerritorios` with the troop numbers 5, 1, 3, 3, 3. -/
def cadastroCenario (i : Nat) : Cadastro :=
  ⟨"T", "Cor", if i = 0 then 5 else if i = 1 then 1 else 3⟩

/-- The scenario map with the defender B entered at `INT_MIN` troops. -/
def cenarioMinimo : Mapa :=
  [⟨"A", "Red", 5⟩, ⟨"B", "Blue", INT_MIN⟩, ⟨"C", "Green", 3⟩, ⟨"D", "Yellow", 2⟩,
    ⟨"E", "Black", 4⟩]

/-! ## Auxiliary facts -/

theorem mapa_cinco (m : Mapa) (hm : m.length = NUM_TERRITORIOS) :
    ∃ t0 t1 t2 t3 t4, m = [t0, t1, t2, t3, t4] := by
  match m, hm with
  | [t0, t1, t2, t3, t4], _ => exact ⟨t0, t1, t2, t3, t4, rfl⟩

theorem numero_casos (a : Int) (h1 : 1 ≤ a) (h5 : a ≤ (NUM_TERRITORIOS : Int)) :
    a = 1 ∨ a = 2 ∨ a = 3 ∨ a = 4 ∨ a = 5 := by
  simp only [NUM_TERRITORIOS] at h5
  omega

theorem decrementarInt_of_gt (x : Int) (h : INT_MIN < x) : decrementarInt x = x - 1 := by
  unfold decrementarInt
  rw [if_neg (ne_of_gt h)]

theorem decrementarInt_of_ge_two (x : Int) (h : 2 ≤ x) : decrementarInt x = x - 1 := by
  apply decrementarInt_of_gt
  simp only [INT_MIN]
  omega

/-- On the values of `int` the decrement is `x - 1` reduced modulo `2 ^ 32`. -/
theorem decrementarInt_eq_wrapInt (x : Int) (h : ehInt x) :
    decrementarInt x = wrapInt (x - 1) := by
  unfold decrementarInt wrapInt
  simp only [ehInt, INT_MIN, INT_MAX] at *
  split_ifs <;> omega

theorem ehInt_decrementarInt (x : Int) (h : ehInt x) : ehInt (decrementarInt x) := by
  unfold decrementarInt
  simp only [ehInt, INT_MIN, INT_MAX] at *
  split_ifs <;> omega

/-- The test `<= 0` after a decrement: it passes for the counts up to 1, except for
`INT_MIN`, whose decrement wraps to `INT_MAX`. -/
theorem decrementarInt_le_zero (x : Int) :
    decrementarInt x ≤ 0 ↔ x ≠ INT_MIN ∧ x ≤ 1 := by
  unfold decrementarInt
  simp only [INT_MIN, INT_MAX]
  split_ifs <;> omega

/-- The two cases of the decrement, with the bounds as numerals. -/
theorem decrementarInt_casos (x : Int) :
    (x = -2147483648 ∧ decrementarInt x = 2147483647) ∨
    (x ≠ -2147483648 ∧ decrementarInt x = x - 1) := by
  unfold decrementarInt
  simp only [INT_MIN, INT_MAX]
  split_ifs <;> omega

/-- Why the bound on the defender: in the scenario with B at `INT_MIN` troops, an
attack of A on B that A wins decrements B to `INT_MAX`; the test `<= 0` fails, B stays
Blue and A keeps its 5 troops. -/
theorem simularAtaque_defensor_INT_MIN :
    territorioEm (simularAtaque 1 2 cenarioMinimo 5 0).1 2 = ⟨"B", "Blue", INT_MAX⟩ ∧
    territorioEm (simularAtaque 1 2 cenarioMinimo 5 0).1 1 = ⟨"A", "Red", 5⟩ ∧
    ¬ caminhoConquista 2 cenarioMinimo 5 0 := by
  decide

theorem indice_inj (i k : Int) (hi : 1 ≤ i) (hk : 1 ≤ k) : indice i = indice k ↔ i = k := by
  unfold indice
  omega

theorem indice_lt (m : Mapa) (i : Int) (hi : 1 ≤ i) (hi5 : i ≤ (m.length : Int)) :
    indice i < m.length := by
  unfold indice
  omega

theorem territorioEm_set (m : Mapa) (i k : Int) (t : Territorio)
    (hi : 1 ≤ i) (hi5 : i ≤ (m.length : Int)) (hk : 1 ≤ k) :
    territorioEm (m.set (indice i) t) k = if k = i then t else territorioEm m k := by
  have hlt := indice_lt m i hi hi5
  unfold territorioEm
  by_cases h : k = i
  · subst h
    simp [List.getD_eq_getElem?_getD, List.getElem?_set, hlt]
  · have hne : ¬ indice i = indice k := fun e => h ((indice_inj i k hi hk).mp e).symm
    simp [List.getD_eq_getElem?_getD, List.getElem?_set, hne, h]

theorem length_definirTropas (m : Mapa) (i v : Int) :
    (definirTropas m i v).length = m.length := by
  simp [definirTropas]

theorem length_definirCor (m : Mapa) (i : Int) (c : String) :
    (definirCor m i c).length = m.length := by
  simp [definirCor]

theorem length_decrementarTropas (m : Mapa) (i : Int) :
    (decrementarTropas m i).length = m.length := by
  simp [decrementarTropas, definirTropas]

theorem territorioEm_definirTropas (m : Mapa) (i k v : Int)
    (hi : 1 ≤ i) (hi5 : i ≤ (m.length : Int)) (hk : 1 ≤ k) :
    territorioEm (definirTropas m i v) k =
      if k = i then { territorioEm m i with num_tropas := v } else territorioEm m k := by
  unfold definirTropas
  exact territorioEm_set m i k _ hi hi5 hk

theorem territorioEm_definirCor (m : Mapa) (i k : Int) (c : String)
    (hi : 1 ≤ i) (hi5 : i ≤ (m.length : Int)) (hk : 1 ≤ k) :
    territorioEm (definirCor m i c) k =
      if k = i then { territorioEm m i with cor := c } else territorioEm m k := by
  unfold definirCor
  exact territorioEm_set m i k _ hi hi5 hk

theorem territorioEm_decrementarTropas (m : Mapa) (i k : Int)
    (hi : 1 ≤ i) (hi5 : i ≤ (m.length : Int)) (hk : 1 ≤ k) :
    territorioEm (decrementarTropas m i) k =
      if k = i then
        { territorioEm m i with num_tropas := decrementarInt (territorioEm m i).num_tropas }
      else territorioEm m k := by
  unfold decrementarTropas tropas
  exact territorioEm_definirTropas m i k _ hi hi5 hk

theorem length_simularAtaque (m : Mapa) (a d : Int) (r1 r2 : Nat) :
    (simularAtaque a d m r1 r2).1.length = m.length := by
  unfold simularAtaque
  simp only []
  split
  · simp [length_decrementarTropas]
  · split <;> simp [length_decrementarTropas, length_definirTropas, length_definirCor]

theorem tropas_decrementarTropas (m : Mapa) (i : Int)
    (hi : 1 ≤ i) (hi5 : i ≤ (m.length : Int)) :
    tropas (decrementarTropas m i) i = decrementarInt (tropas m i) := by
  unfold tropas
  rw [territorioEm_decrementarTropas m i i hi hi5 hi]
  simp

/-- The territory at number `k` after `simularAtaque a d`, for numbers in range: the
three outcomes of the battle spelled out field by field. -/
theorem territorioEm_simularAtaque (m : Mapa) (a d k : Int) (r1 r2 : Nat)
    (ha : 1 ≤ a) (ha5 : a ≤ (m.length : Int)) (hd : 1 ≤ d) (hd5 : d ≤ (m.length : Int))
    (hk : 1 ≤ k) :
    territorioEm (simularAtaque a d m r1 r2).1 k =
      if dado r1 ≤ dado r2 then
        (if k = a then ⟨nomeDe m a, corDe m a, decrementarInt (tropas m a)⟩
         else territorioEm m k)
      else if decrementarInt (tropas m d) ≤ 0 then
        (if a = d then
          (if k = d then ⟨nomeDe m d, corDe m d, 0⟩ else territorioEm m k)
         else if k = a then ⟨nomeDe m a, corDe m a, decrementarInt (tropas m a)⟩
         else if k = d then ⟨nomeDe m d, corDe m a, 1⟩
         else territorioEm m k)
      else
        (if k = d then ⟨nomeDe m d, corDe m d, decrementarInt (tropas m d)⟩
         else territorioEm m k) := by
  unfold simularAtaque
  simp only []
  rw [tropas_decrementarTropas m d hd hd5]
  by_cases h1 : dado r1 ≤ dado r2
  · simp only [h1, if_true]
    rw [territorioEm_decrementarTropas m a k ha ha5 hk]
    rfl
  · simp only [h1, if_false]
    by_cases h2 : decrementarInt (tropas m d) ≤ 0
    · simp only [h2, if_true]
      have hum : decrementarInt 1 = 0 := by decide
      simp only [corDe, nomeDe, tropas, territorioEm_decrementarTropas, territorioEm_definirTropas,
        territorioEm_definirCor, length_decrementarTropas, length_definirTropas,
        length_definirCor, ha, ha5, hd, hd5, hk]
      by_cases had : a = d
      · subst had
        by_cases hka : k = a
        · subst hka
          simp [hum]
        · simp [hka]
      · have hda : ¬ d = a := fun e => had e.symm
        by_cases hka : k = a
        · subst hka
          simp [had]
        · by_cases hkd : k = d
          · subst hkd
            simp [had]
          · simp [hka, hkd, had]
    · simp only [h2, if_false]
      rw [territorioEm_decrementarTropas m d k hd hd5 hk]
      rfl

/-- The outcome of `simularAtaque` when neither decrement can wrap: every decrement is
a subtraction of 1. -/
theorem territorioEm_simularAtaque_exato (m : Mapa) (a d k : Int) (r1 r2 : Nat)
    (ha : 1 ≤ a) (ha5 : a ≤ (m.length : Int)) (hd : 1 ≤ d) (hd5 : d ≤ (m.length : Int))
    (hk : 1 ≤ k) (hta : INT_MIN < tropas m a) (htd : INT_MIN < tropas m d) :
    territorioEm (simularAtaque a d m r1 r2).1 k =
      if dado r1 ≤ dado r2 then
        (if k = a then ⟨nomeDe m a, corDe m a, tropas m a - 1⟩ else territorioEm m k)
      else if tropas m d - 1 ≤ 0 then
        (if a = d then
          (if k = d then ⟨nomeDe m d, corDe m d, 0⟩ else territorioEm m k)
         else if k = a then ⟨nomeDe m a, corDe m a, tropas m a - 1⟩
         else if k = d then ⟨nomeDe m d, corDe m a, 1⟩
         else territorioEm m k)
      else
        (if k = d then ⟨nomeDe m d, corDe m d, tropas m d - 1⟩ else territorioEm m k) := by
  rw [territorioEm_simularAtaque m a d k r1 r2 ha ha5 hd hd5 hk,
    decrementarInt_of_gt _ hta, decrementarInt_of_gt _ htd]

theorem INT_MIN_lt_of_ge_two (x : Int) (h : 2 ≤ x) : INT_MIN < x := by
  simp only [INT_MIN]
  omega

theorem faseDeAtaque_resolvido (m : Mapa) (a d : Int) (r1 r2 : Nat)
    (ha : 1 ≤ a) (ha5 : a ≤ (NUM_TERRITORIOS : Int)) (ht : 2 ≤ tropas m a)
    (hd : 1 ≤ d) (hd5 : d ≤ (NUM_TERRITORIOS : Int)) :
    faseDeAtaque m a d r1 r2 =
      ((simularAtaque a d m r1 r2).1,
        [Mensagem.perguntaAtacante, Mensagem.perguntaAtacado,
          Mensagem.dadoAtacante (dado r1), Mensagem.dadoAtacado (dado r2)]) := by
  have h1 : ¬ (a < 1 ∨ a > (NUM_TERRITORIOS : Int)) := by omega
  have h2 : ¬ tropas m a < 2 := by omega
  have h3 : ¬ (d < 1 ∨ d > (NUM_TERRITORIOS : Int)) := by omega
  have h4 : (simularAtaque a d m r1 r2).2 =
      [Mensagem.dadoAtacante (dado r1), Mensagem.dadoAtacado (dado r2)] := by
    unfold simularAtaque
    simp only []
    split
    · rfl
    · split <;> rfl
  simp only [faseDeAtaque, h1, h2, h3, if_false, h4]
  rfl

theorem somaTropas_set (m : Mapa) (n : Nat) (t : Territorio) (h : n < m.length) :
    somaTropas (m.set n t) = somaTropas m + t.num_tropas - (m.getD n default).num_tropas := by
  induction m generalizing n with
  | nil => simp at h
  | cons x xs ih =>
    cases n with
    | zero =>
      simp only [somaTropas, List.set_cons_zero, List.map_cons, List.sum_cons,
        List.getD_cons_zero]
      omega
    | succ n =>
      have hn : n < xs.length := by simpa using h
      have := ih n hn
      simp only [somaTropas, List.set_cons_succ, List.map_cons, List.sum_cons,
        List.getD_cons_succ] at this ⊢
      omega

theorem somaTropas_definirTropas (m : Mapa) (i v : Int)
    (hi : 1 ≤ i) (hi5 : i ≤ (m.length : Int)) :
    somaTropas (definirTropas m i v) = somaTropas m + v - tropas m i := by
  unfold definirTropas
  rw [somaTropas_set m (indice i) _ (indice_lt m i hi hi5)]
  rfl

theorem somaTropas_definirCor (m : Mapa) (i : Int) (c : String)
    (hi : 1 ≤ i) (hi5 : i ≤ (m.length : Int)) :
    somaTropas (definirCor m i c) = somaTropas m := by
  unfold definirCor
  rw [somaTropas_set m (indice i) _ (indice_lt m i hi hi5)]
  simp only [territorioEm]
  omega

theorem somaTropas_decrementarTropas (m : Mapa) (i : Int)
    (hi : 1 ≤ i) (hi5 : i ≤ (m.length : Int)) :
    somaTropas (decrementarTropas m i) =
      somaTropas m + decrementarInt (tropas m i) - tropas m i := by
  unfold decrementarTropas
  rw [somaTropas_definirTropas m i _ hi hi5]

/-- The sum of the troops after `simularAtaque`, when the counts of the attacker and of
the defender are above `INT_MIN`: one troop is lost, except on the conquest path,
where the defender's troops are replaced by the troop moved in. -/
theorem somaTropas_simularAtaque (m : Mapa) (a d : Int) (r1 r2 : Nat)
    (ha : 1 ≤ a) (ha5 : a ≤ (m.length : Int)) (hd : 1 ≤ d) (hd5 : d ≤ (m.length : Int))
    (hta : INT_MIN < tropas m a) (htd : INT_MIN < tropas m d) :
    somaTropas (simularAtaque a d m r1 r2).1 =
      if dado r1 ≤ dado r2 then somaTropas m - 1
      else if tropas m d - 1 ≤ 0 then somaTropas m - tropas m d
      else somaTropas m - 1 := by
  have eda := decrementarInt_of_gt (tropas m a) hta
  have edd := decrementarInt_of_gt (tropas m d) htd
  unfold simularAtaque
  simp only []
  rw [tropas_decrementarTropas m d hd hd5, edd]
  by_cases h1 : dado r1 ≤ dado r2
  · simp only [h1, if_true]
    rw [somaTropas_decrementarTropas m a ha ha5, eda]
    omega
  · simp only [h1, if_false]
    by_cases h2 : tropas m d - 1 ≤ 0
    · simp only [h2, if_true]
      have l1 : a ≤ ((definirTropas (definirCor (decrementarTropas m d) d
          (corDe (decrementarTropas m d) a)) d 1).length : Int) := by
        simpa [length_definirTropas, length_definirCor, length_decrementarTropas] using ha5
      have l2 : d ≤ ((definirCor (decrementarTropas m d) d
          (corDe (decrementarTropas m d) a)).length : Int) := by
        simpa [length_definirCor, length_decrementarTropas] using hd5
      have l3 : d ≤ ((decrementarTropas m d).length : Int) := by
        simpa [length_decrementarTropas] using hd5
      have l3a : a ≤ ((decrementarTropas m d).length : Int) := by
        simpa [length_decrementarTropas] using ha5
      have l2a : a ≤ ((definirCor (decrementarTropas m d) d
          (corDe (decrementarTropas m d) a)).length : Int) := by
        simpa [length_definirCor, length_decrementarTropas] using ha5
      have e : tropas (definirCor (decrementarTropas m d) d
          (corDe (decrementarTropas m d) a)) d = tropas m d - 1 := by
        unfold tropas
        rw [territorioEm_definirCor _ d d _ hd l3 hd,
          territorioEm_decrementarTropas m d d hd hd5 hd]
        simp only [if_true]
        exact edd
      have ea : tropas (definirTropas (definirCor (decrementarTropas m d) d
          (corDe (decrementarTropas m d) a)) d 1) a =
          if a = d then 1 else tropas m a := by
        unfold tropas
        rw [territorioEm_definirTropas _ d a 1 hd l2 ha,
          territorioEm_definirCor _ d a _ hd l3 ha,
          territorioEm_decrementarTropas m d a hd hd5 ha]
        by_cases had : a = d
        · simp [had]
        · simp [had]
      rw [somaTropas_decrementarTropas _ a ha l1, somaTropas_definirTropas _ d 1 hd l2,
        somaTropas_definirCor _ d _ hd l3, somaTropas_decrementarTropas m d hd hd5, e, ea,
        edd]
      by_cases had : a = d
      · have hum : decrementarInt 1 = 0 := by decide
        simp only [had, if_true, hum]
        omega
      · simp only [had, if_false, eda]
        omega
    · simp only [h2, if_false]
      rw [somaTropas_decrementarTropas m d hd hd5, edd]
      omega

theorem todos_iff (m : Mapa) (hm : m.length = NUM_TERRITORIOS) (P : Territorio → Prop) :
    (∀ t ∈ m, P t) ↔ ∀ k : Int, 1 ≤ k → k ≤ (NUM_TERRITORIOS : Int) → P (territorioEm m k) := by
  obtain ⟨t0, t1, t2, t3, t4, rfl⟩ := mapa_cinco m hm
  constructor
  · intro h k hk hk5
    rcases numero_casos k hk hk5 with rfl | rfl | rfl | rfl | rfl <;>
      exact h _ (by simp [territorioEm, indice])
  · intro h t ht
    simp only [List.mem_cons, List.mem_singleton, List.not_mem_nil, or_false] at ht
    rcases ht with rfl | rfl | rfl | rfl | rfl
    · exact h 1 (by decide) (by decide)
    · exact h 2 (by decide) (by decide)
    · exact h 3 (by decide) (by decide)
    · exact h 4 (by decide) (by decide)
    · exact h 5 (by decide) (by decide)

/-- A turn is either resolved, when both numbers are in range and the attacker has at
least 2 troops, or rejected with the map as it was and no die line printed. -/
theorem faseDeAtaque_casos (m : Mapa) (a d : Int) (r1 r2 : Nat) :
    ((1 ≤ a ∧ a ≤ (NUM_TERRITORIOS : Int) ∧ 2 ≤ tropas m a ∧
        1 ≤ d ∧ d ≤ (NUM_TERRITORIOS : Int)) ∧
      (faseDeAtaque m a d r1 r2).1 = (simularAtaque a d m r1 r2).1 ∧
      ataquesResolvidos (faseDeAtaque m a d r1 r2).2 = 1) ∨
    (¬ (1 ≤ a ∧ a ≤ (NUM_TERRITORIOS : Int) ∧ 2 ≤ tropas m a ∧
        1 ≤ d ∧ d ≤ (NUM_TERRITORIOS : Int)) ∧
      (faseDeAtaque m a d r1 r2).1 = m ∧
      ataquesResolvidos (faseDeAtaque m a d r1 r2).2 = 0) := by
  by_cases hv : 1 ≤ a ∧ a ≤ (NUM_TERRITORIOS : Int) ∧ 2 ≤ tropas m a ∧
      1 ≤ d ∧ d ≤ (NUM_TERRITORIOS : Int)
  · left
    obtain ⟨ha, ha5, ht, hd, hd5⟩ := hv
    rw [faseDeAtaque_resolvido m a d r1 r2 ha ha5 ht hd hd5]
    exact ⟨⟨ha, ha5, ht, hd, hd5⟩, rfl, by simp [ataquesResolvidos]⟩
  · right
    refine ⟨hv, ?_⟩
    unfold faseDeAtaque
    by_cases h1 : a < 1 ∨ a > (NUM_TERRITORIOS : Int)
    · simp [h1, ataquesResolvidos]
    · by_cases h2 : tropas m a < 2
      · simp [h1, h2, ataquesResolvidos]
      · have h3 : d < 1 ∨ d > (NUM_TERRITORIOS : Int) := by
          by_contra h3
          exact hv ⟨by omega, by omega, by omega, by omega, by omega⟩
        simp [h1, h2, h3, ataquesResolvidos]

theorem length_faseDeAtaque (m : Mapa) (a d : Int) (r1 r2 : Nat) :
    (faseDeAtaque m a d r1 r2).1.length = m.length := by
  rcases faseDeAtaque_casos m a d r1 r2 with ⟨_, h, _⟩ | ⟨_, h, _⟩
  · rw [h, length_simularAtaque]
  · rw [h]

/-- A lower bound `c ≤ 1` on every troop number of the map survives a turn. -/
theorem faseDeAtaque_limite (c : Int) (hc : c ≤ 1) (m : Mapa) (hm : m.length = NUM_TERRITORIOS)
    (hinv : ∀ t ∈ m, c ≤ t.num_tropas) (a d : Int) (r1 r2 : Nat) :
    ∀ t ∈ (faseDeAtaque m a d r1 r2).1, c ≤ t.num_tropas := by
  rcases faseDeAtaque_casos m a d r1 r2 with ⟨⟨ha, ha5, ht, hd, hd5⟩, h, _⟩ | ⟨_, h, _⟩
  · rw [h]
    have hl : (simularAtaque a d m r1 r2).1.length = NUM_TERRITORIOS := by
      rw [length_simularAtaque, hm]
    rw [todos_iff _ hl]
    rw [todos_iff m hm] at hinv
    intro k hk hk5
    have hk' := hinv k hk hk5
    have ha5' := ha5
    have hd5' := hd5
    rw [← hm] at ha5' hd5'
    rw [territorioEm_simularAtaque m a d k r1 r2 ha ha5' hd hd5' hk]
    have sa := decrementarInt_casos (tropas m a)
    have sd := decrementarInt_casos (tropas m d)
    simp only [tropas] at ht sa sd ⊢
    split_ifs <;> subst_vars <;> (try dsimp only) <;> omega
  · rw [h]
    exact hinv

/-- Troop numbers between 0 and a bound `U ≥ 1` stay there over a turn. -/
theorem faseDeAtaque_faixa (U : Int) (hU : 1 ≤ U) (m : Mapa) (hm : m.length = NUM_TERRITORIOS)
    (hinv : ∀ t ∈ m, 0 ≤ t.num_tropas ∧ t.num_tropas ≤ U) (a d : Int) (r1 r2 : Nat) :
    ∀ t ∈ (faseDeAtaque m a d r1 r2).1, 0 ≤ t.num_tropas ∧ t.num_tropas ≤ U := by
  rcases faseDeAtaque_casos m a d r1 r2 with ⟨⟨ha, ha5, ht, hd, hd5⟩, h, _⟩ | ⟨_, h, _⟩
  · rw [h]
    have hl : (simularAtaque a d m r1 r2).1.length = NUM_TERRITORIOS := by
      rw [length_simularAtaque, hm]
    rw [todos_iff _ hl]
    rw [todos_iff m hm] at hinv
    intro k hk hk5
    have hk' := hinv k hk hk5
    have ha' := hinv a ha ha5
    have hd' := hinv d hd hd5
    have ha5' := ha5
    have hd5' := hd5
    rw [← hm] at ha5' hd5'
    rw [territorioEm_simularAtaque m a d k r1 r2 ha ha5' hd hd5' hk]
    have sa := decrementarInt_casos (tropas m a)
    have sd := decrementarInt_casos (tropas m d)
    simp only [tropas] at ht sa sd ⊢
    split_ifs <;> subst_vars <;> (try dsimp only) <;> omega
  · rw [h]
    exact hinv

/-- When every territory has at least 1 troop, the troops lost in a turn are exactly
the battles resolved in it: one for a resolved turn, none for a rejected one. -/
theorem somaTropas_faseDeAtaque (m : Mapa) (hm : m.length = NUM_TERRITORIOS)
    (hinv : ∀ t ∈ m, 1 ≤ t.num_tropas) (a d : Int) (r1 r2 : Nat) :
    somaTropas (faseDeAtaque m a d r1 r2).1 +
      (ataquesResolvidos (faseDeAtaque m a d r1 r2).2 : Int) = somaTropas m := by
  rcases faseDeAtaque_casos m a d r1 r2 with ⟨⟨ha, ha5, _, hd, hd5⟩, h, hn⟩ | ⟨_, h, hn⟩
  · rw [h, hn]
    have hdinv := (todos_iff m hm (fun t => 1 ≤ t.num_tropas)).mp hinv d hd hd5
    have hainv := (todos_iff m hm (fun t => 1 ≤ t.num_tropas)).mp hinv a ha ha5
    rw [← hm] at ha5 hd5
    rw [somaTropas_simularAtaque m a d r1 r2 ha ha5 hd hd5
      (by simp only [tropas, INT_MIN]; omega) (by simp only [tropas, INT_MIN]; omega)]
    simp only [tropas]
    split_ifs <;> push_cast <;> omega
  · rw [h, hn]
    simp

theorem length_lacoPrincipal (rodadas : List Rodada) (m : Mapa) :
    (lacoPrincipal m rodadas).1.length = m.length := by
  induction rodadas generalizing m with
  | nil => rfl
  | cons j js ih =>
    unfold lacoPrincipal
    by_cases h0 : j.opcao = 0
    · simp only [h0, if_true]
    · simp only [h0, if_false]
      rw [ih, length_faseDeAtaque]

/-- A lower bound `c ≤ 1` on every troop number survives the whole loop of `main`. -/
theorem lacoPrincipal_limite (c : Int) (hc : c ≤ 1) (rodadas : List Rodada) (m : Mapa)
    (hm : m.length = NUM_TERRITORIOS) (hinv : ∀ t ∈ m, c ≤ t.num_tropas) :
    ∀ t ∈ (lacoPrincipal m rodadas).1, c ≤ t.num_tropas := by
  induction rodadas generalizing m with
  | nil => exact hinv
  | cons j js ih =>
    unfold lacoPrincipal
    by_cases h0 : j.opcao = 0
    · simp only [h0, if_true]
      exact hinv
    · simp only [h0, if_false]
      exact ih _ (by rw [length_faseDeAtaque, hm])
        (faseDeAtaque_limite c hc m hm hinv j.atacante j.atacado j.r1 j.r2)

/-- Troop numbers between 0 and a bound `U ≥ 1` stay there over the whole loop of
`main`. -/
theorem lacoPrincipal_faixa (U : Int) (hU : 1 ≤ U) (rodadas : List Rodada) (m : Mapa)
    (hm : m.length = NUM_TERRITORIOS)
    (hinv : ∀ t ∈ m, 0 ≤ t.num_tropas ∧ t.num_tropas ≤ U) :
    ∀ t ∈ (lacoPrincipal m rodadas).1, 0 ≤ t.num_tropas ∧ t.num_tropas ≤ U := by
  induction rodadas generalizing m with
  | nil => exact hinv
  | cons j js ih =>
    unfold lacoPrincipal
    by_cases h0 : j.opcao = 0
    · simp only [h0, if_true]
      exact hinv
    · simp only [h0, if_false]
      exact ih _ (by rw [length_faseDeAtaque, hm])
        (faseDeAtaque_faixa U hU m hm hinv j.atacante j.atacado j.r1 j.r2)

/-- When every territory has at least 1 troop, the troops lost over the loop of `main`
are exactly the battles resolved in it. -/
theorem somaTropas_lacoPrincipal (rodadas : List Rodada) (m : Mapa)
    (hm : m.length = NUM_TERRITORIOS) (hinv : ∀ t ∈ m, 1 ≤ t.num_tropas) :
    somaTropas (lacoPrincipal m rodadas).1 +
      (ataquesResolvidos (lacoPrincipal m rodadas).2 : Int) = somaTropas m := by
  induction rodadas generalizing m with
  | nil => simp [lacoPrincipal, ataquesResolvidos]
  | cons j js ih =>
    unfold lacoPrincipal
    by_cases h0 : j.opcao = 0
    · simp [h0, ataquesResolvidos]
    · simp only [h0, if_false]
      have h1 := ih _ (by rw [length_faseDeAtaque, hm])
        (faseDeAtaque_limite 1 (le_refl 1) m hm hinv j.atacante j.atacado j.r1 j.r2)
      have h2 := somaTropas_faseDeAtaque m hm hinv j.atacante j.atacado j.r1 j.r2
      simp only [ataquesResolvidos, List.countP_append, Nat.cast_add] at h1 h2 ⊢
      omega

/-- A map of five territories with at least 1 troop each has at least 5 troops. -/
theorem somaTropas_ge (m : Mapa) (hm : m.length = NUM_TERRITORIOS)
    (hinv : ∀ t ∈ m, 1 ≤ t.num_tropas) : (NUM_TERRITORIOS : Int) ≤ somaTropas m := by
  obtain ⟨t0, t1, t2, t3, t4, rfl⟩ := mapa_cinco m hm
  have h0 := hinv t0 (by simp)
  have h1 := hinv t1 (by simp)
  have h2 := hinv t2 (by simp)
  have h3 := hinv t3 (by simp)
  have h4 := hinv t4 (by simp)
  simp only [somaTropas, List.map_cons, List.map_nil, List.sum_cons, List.sum_nil,
    NUM_TERRITORIOS]
  push_cast
  omega

/-- After `inicializarTerritorios` the freshly allocated map holds, in order, the five
territories read. -/
theorem inicializarTerritorios_alocarMapa (entrada : Nat → Cadastro) :
    inicializarTerritorios alocarMapa entrada =
      (List.range NUM_TERRITORIOS).map
        (fun i => ⟨(entrada i).nome, (entrada i).cor, (entrada i).num_tropas⟩) := by
  rfl

/-! ## The attack resolver -/

/-- The scenario read against claim C1: A (Red, 5 troops) attacks B (Blue, 1 troop)
and wins with 6 against 1.  B becomes Red with 1 troop, and A is left with 4 troops,
not with 3. -/
theorem simularAtaque_cenario_vitoria_quatro :
    dado 5 > dado 0 ∧
    territorioEm cenario 1 = ⟨"A", "Red", 5⟩ ∧ territorioEm cenario 2 = ⟨"B", "Blue", 1⟩ ∧
    territorioEm (simularAtaque 1 2 cenario 5 0).1 2 = ⟨"B", "Red", 1⟩ ∧
    tropas (simularAtaque 1 2 cenario 5 0).1 1 = 4 ∧
    ¬ tropas (simularAtaque 1 2 cenario 5 0).1 1 = 3 := by
  decide

/-- The claim C1, with the scenario value put right and the counts kept off `INT_MIN`:
the attacker-win branch of `simularAtaque`.  For a map of five territories, distinct
numbers `a`, `d` in `1..5` and an attacker die above the defender die, with `t` the
defender's troop number before the call: when `t - 1 > 0` only the defender's troop
number changes, to `t - 1`; when `t - 1 ≤ 0`, and the troop numbers of defender and
attacker are above `INT_MIN`, the defender gets the attacker's colour and exactly `1`
troop, the attacker loses `1` troop, and every name, every other colour and every
other territory stays.  (In the scenario A therefore ends with `5 - 1 = 4` troops.) -/
theorem simularAtaque_vitoria (m : Mapa) (hm : m.length = NUM_TERRITORIOS) (a d : Int)
    (ha : 1 ≤ a) (ha5 : a ≤ (NUM_TERRITORIOS : Int))
    (hd : 1 ≤ d) (hd5 : d ≤ (NUM_TERRITORIOS : Int)) (hne : a ≠ d)
    (r1 r2 : Nat) (hdados : dado r1 > dado r2) :
    (simularAtaque a d m r1 r2).1.length = NUM_TERRITORIOS ∧
    (tropas m d - 1 > 0 →
      ∀ k : Int, 1 ≤ k → k ≤ (NUM_TERRITORIOS : Int) →
        territorioEm (simularAtaque a d m r1 r2).1 k =
          if k = d then ⟨nomeDe m d, corDe m d, tropas m d - 1⟩ else territorioEm m k) ∧
    (tropas m d - 1 ≤ 0 → INT_MIN < tropas m d → INT_MIN < tropas m a →
      ∀ k : Int, 1 ≤ k → k ≤ (NUM_TERRITORIOS : Int) →
        territorioEm (simularAtaque a d m r1 r2).1 k =
          if k = d then ⟨nomeDe m d, corDe m a, 1⟩
          else if k = a then ⟨nomeDe m a, corDe m a, tropas m a - 1⟩
          else territorioEm m k) := by
  have hnle : ¬ dado r1 ≤ dado r2 := not_le.mpr hdados
  rw [← hm] at ha5 hd5
  refine ⟨by rw [length_simularAtaque, hm], ?_, ?_⟩
  · intro ht k hk _
    have hnt : ¬ tropas m d - 1 ≤ 0 := not_le.mpr ht
    have ed : decrementarInt (tropas m d) = tropas m d - 1 :=
      decrementarInt_of_ge_two _ (by omega)
    rw [territorioEm_simularAtaque m a d k r1 r2 ha ha5 hd hd5 hk, ed]
    simp only [hnle, hnt, if_false]
  · intro ht htd hta k hk _
    rw [territorioEm_simularAtaque_exato m a d k r1 r2 ha ha5 hd hd5 hk hta htd]
    simp only [hnle, ht, hne, if_false, if_true]
    by_cases hkd : k = d
    · have hka : ¬ k = a := fun e => hne (e.symm.trans hkd)
      simp only [hkd, hka, if_true, if_false]
      subst hkd
      simp [hka]
    · simp only [hkd, if_false]

/-- The scenario through `simularAtaque_vitoria`: A (Red, 5) attacks B (Blue, 1) and
wins; afterwards B is Red with 1 troop and A is Red with 4 troops. -/
theorem simularAtaque_vitoria_cenario :
    cenario.length = NUM_TERRITORIOS ∧ dado 5 > dado 0 ∧ tropas cenario 2 - 1 ≤ 0 ∧
    territorioEm (simularAtaque 1 2 cenario 5 0).1 2 = ⟨"B", "Red", 1⟩ ∧
    territorioEm (simularAtaque 1 2 cenario 5 0).1 1 = ⟨"A", "Red", 4⟩ :=
  have h := simularAtaque_vitoria cenario rfl 1 2 (by decide) (by decide) (by decide)
    (by decide) (by decide) 5 0 (by decide)
  ⟨rfl, by decide, by decide,
    (h.2.2 (by decide) (by decide) (by decide) 2 (by decide) (by decide)).trans (by decide),
    (h.2.2 (by decide) (by decide) (by decide) 1 (by decide) (by decide)).trans (by decide)⟩

/-- A self-attack read against claim C2: in the scenario territory 1 (5 troops)
attacks itself, the turn is accepted, the dice tie, and the defender's troop number
(territory 1 again) is 4 afterwards, not the 5 it was before. -/
theorem simularAtaque_empate_proprio_territorio :
    dado 0 ≤ dado 0 ∧
    faseDeAtaque cenario 1 1 0 0 =
      ((simularAtaque 1 1 cenario 0 0).1,
        [Mensagem.perguntaAtacante, Mensagem.perguntaAtacado,
          Mensagem.dadoAtacante 1, Mensagem.dadoAtacado 1]) ∧
    tropas cenario 1 = 5 ∧ tropas (simularAtaque 1 1 cenario 0 0).1 1 = 4 ∧
    ¬ tropas (simularAtaque 1 1 cenario 0 0).1 1 = tropas cenario 1 := by
  decide

/-- The claim C2, amended for the self-attack and with the attacker's count kept off
`INT_MIN`: the tie or loss branch of `simularAtaque`.  For a map of five territories
whose attacker has a troop number above `INT_MIN`, numbers `a`, `d` in `1..5` and an
attacker die not above the defender die, the result is the input map with the
attacker's troop number lowered by exactly 1 and nothing else changed: every name,
every colour and every other territory are as before, and so is the defender when it
is another territory; when `d = a` the defender is the attacker and has lost that
troop. -/
theorem simularAtaque_empate_ou_derrota (m : Mapa) (hm : m.length = NUM_TERRITORIOS)
    (a d : Int) (ha : 1 ≤ a) (ha5 : a ≤ (NUM_TERRITORIOS : Int))
    (hd : 1 ≤ d) (hd5 : d ≤ (NUM_TERRITORIOS : Int)) (hta : INT_MIN < tropas m a)
    (r1 r2 : Nat) (hdados : dado r1 ≤ dado r2) :
    (simularAtaque a d m r1 r2).1.length = NUM_TERRITORIOS ∧
    (∀ k : Int, 1 ≤ k → k ≤ (NUM_TERRITORIOS : Int) →
      territorioEm (simularAtaque a d m r1 r2).1 k =
        if k = a then ⟨nomeDe m a, corDe m a, tropas m a - 1⟩ else territorioEm m k) ∧
    (d ≠ a → territorioEm (simularAtaque a d m r1 r2).1 d = territorioEm m d) ∧
    (d = a → tropas (simularAtaque a d m r1 r2).1 d = tropas m d - 1) := by
  rw [← hm] at ha5 hd5
  have ea := decrementarInt_of_gt _ hta
  refine ⟨by rw [length_simularAtaque, hm], ?_, ?_, ?_⟩
  · intro k hk _
    rw [territorioEm_simularAtaque m a d k r1 r2 ha ha5 hd hd5 hk, ea]
    simp only [hdados, if_true]
  · intro hda
    rw [territorioEm_simularAtaque m a d d r1 r2 ha ha5 hd hd5 hd]
    simp only [hdados, hda, if_true, if_false]
  · intro hda
    unfold tropas
    rw [territorioEm_simularAtaque m a d d r1 r2 ha ha5 hd hd5 hd, ea]
    simp only [hdados, hda, if_true]
    rfl

/-- The scenario through `simularAtaque_empate_ou_derrota`: A (Red, 5) attacks
B (Blue, 1) and the dice tie; afterwards A has 4 troops and B is still Blue with 1. -/
theorem simularAtaque_empate_ou_derrota_cenario :
    cenario.length = NUM_TERRITORIOS ∧ dado 2 ≤ dado 2 ∧
    territorioEm (simularAtaque 1 2 cenario 2 2).1 1 = ⟨"A", "Red", 4⟩ ∧
    territorioEm (simularAtaque 1 2 cenario 2 2).1 2 = ⟨"B", "Blue", 1⟩ :=
  have h := simularAtaque_empate_ou_derrota cenario rfl 1 2 (by decide) (by decide)
    (by decide) (by decide) (by decide) 2 2 (by decide)
  ⟨rfl, by decide, (h.2.1 1 (by decide) (by decide)).trans (by decide),
    (h.2.2.1 (by decide)).trans (by decide)⟩

/-! ## The attack phase -/

/-- The claim C3: a rejected turn changes nothing.  For every map and any two `int`
values read as attacker and defender numbers, when the attacker number is outside
`1..5`, or it is inside and that territory has fewer than 2 troops, or the defender
number is outside `1..5`, then for all dice the map after `faseDeAtaque` is the map
before it, the output has no die line (`simularAtaque` was not called) and ends in
one of the two rejection messages. -/
theorem faseDeAtaque_rejeitado (m : Mapa) (a d : Int) (r1 r2 : Nat) :
    ehInt a → ehInt d →
    ((a < 1 ∨ a > (NUM_TERRITORIOS : Int)) ∨
     (1 ≤ a ∧ a ≤ (NUM_TERRITORIOS : Int) ∧ tropas m a < 2) ∨
     (d < 1 ∨ d > (NUM_TERRITORIOS : Int))) →
    (faseDeAtaque m a d r1 r2).1 = m ∧
    semDados (faseDeAtaque m a d r1 r2).2 ∧
    ataquesResolvidos (faseDeAtaque m a d r1 r2).2 = 0 ∧
    ((faseDeAtaque m a d r1 r2).2.getLast? = some Mensagem.territorioInvalido ∨
     (faseDeAtaque m a d r1 r2).2.getLast? = some Mensagem.tropasInsuficientes) := by
  intro _ _ h
  unfold faseDeAtaque
  by_cases h1 : a < 1 ∨ a > (NUM_TERRITORIOS : Int)
  · simp [h1, semDados, linhaDeDado, ataquesResolvidos]
  · by_cases h2 : tropas m a < 2
    · simp [h1, h2, semDados, linhaDeDado, ataquesResolvidos]
    · have h3 : d < 1 ∨ d > (NUM_TERRITORIOS : Int) := by
        rcases h with h | h | h
        · exact absurd h h1
        · exact absurd h.2.2 h2
        · exact h
      simp [h1, h2, h3, semDados, linhaDeDado, ataquesResolvidos]

/-- Instances of `faseDeAtaque_rejeitado` on the scenario: an attacker with exactly
1 troop (territory 2), an attacker number 0, a defender number 6, and the extreme
`int` values as attacker and defender numbers are all rejected with the map
unchanged. -/
theorem faseDeAtaque_rejeitado_cenario :
    tropas cenario 2 = 1 ∧
    ehInt 0 ∧ ehInt 1 ∧ ehInt 2 ∧ ehInt 6 ∧ ehInt INT_MIN ∧ ehInt INT_MAX ∧
    (faseDeAtaque cenario 2 1 5 0).1 = cenario ∧
    (faseDeAtaque cenario 0 1 5 0).1 = cenario ∧
    (faseDeAtaque cenario 1 6 5 0).1 = cenario ∧
    (faseDeAtaque cenario INT_MIN INT_MAX 5 0).1 = cenario ∧
    (faseDeAtaque cenario 1 INT_MAX 5 0).1 = cenario :=
  ⟨by decide, by decide, by decide, by decide, by decide, by decide, by decide,
    (faseDeAtaque_rejeitado cenario 2 1 5 0 (by decide) (by decide)
      (Or.inr (Or.inl ⟨by decide, by decide, by decide⟩))).1,
    (faseDeAtaque_rejeitado cenario 0 1 5 0 (by decide) (by decide)
      (Or.inl (Or.inl (by decide)))).1,
    (faseDeAtaque_rejeitado cenario 1 6 5 0 (by decide) (by decide)
      (Or.inr (Or.inr (Or.inr (by decide))))).1,
    (faseDeAtaque_rejeitado cenario INT_MIN INT_MAX 5 0 (by decide) (by decide)
      (Or.inl (Or.inl (by decide)))).1,
    (faseDeAtaque_rejeitado cenario 1 INT_MAX 5 0 (by decide) (by decide)
      (Or.inr (Or.inr (Or.inr (by decide))))).1⟩

/-! ## Conquest -/

/-- The claim C4: the conquest postcondition of `simularAtaque`, for the calls it
receives (the only caller, `faseDeAtaque`, passes an attacker with at least 2 troops).
For a map of five territories, attacker and defender numbers in `1..5`, equal or
distinct, and any dice, when the call takes the conquest path (attacker die above the
defender die and the defender's troop number `≤ 0` after its decrement), afterwards
the defender's colour is the one the attacker had before the call and the defender's
troop number is exactly 1. -/
theorem simularAtaque_conquista (m : Mapa) (hm : m.length = NUM_TERRITORIOS) (a d : Int)
    (ha : 1 ≤ a) (ha5 : a ≤ (NUM_TERRITORIOS : Int)) (hta : 2 ≤ tropas m a)
    (hd : 1 ≤ d) (hd5 : d ≤ (NUM_TERRITORIOS : Int))
    (r1 r2 : Nat) (hc : caminhoConquista d m r1 r2) :
    corDe (simularAtaque a d m r1 r2).1 d = corDe m a ∧
    tropas (simularAtaque a d m r1 r2).1 d = 1 := by
  rw [← hm] at ha5 hd5
  obtain ⟨hnle, ht⟩ := hc
  rw [tropas_decrementarTropas m d hd hd5] at ht
  have hne : ¬ a = d := by
    intro e
    rw [e] at hta
    rw [decrementarInt_of_ge_two _ hta] at ht
    omega
  have hda : ¬ d = a := fun e => hne e.symm
  unfold corDe tropas
  rw [territorioEm_simularAtaque m a d d r1 r2 ha ha5 hd hd5 hd]
  simp only [hnle, ht, hne, hda, if_false, if_true]
  exact ⟨rfl, trivial⟩

/-- The scenario through `simularAtaque_conquista`: A (Red, 5 troops) conquers B;
afterwards B is Red with exactly 1 troop. -/
theorem simularAtaque_conquista_cenario :
    cenario.length = NUM_TERRITORIOS ∧ 2 ≤ tropas cenario 1 ∧
    caminhoConquista 2 cenario 5 0 ∧ corDe cenario 1 = "Red" ∧
    corDe (simularAtaque 1 2 cenario 5 0).1 2 = corDe cenario 1 ∧
    tropas (simularAtaque 1 2 cenario 5 0).1 2 = 1 :=
  ⟨rfl, by decide, by decide, by decide,
    simularAtaque_conquista cenario rfl 1 2 (by decide) (by decide) (by decide) (by decide)
      (by decide) 5 0 (by decide)⟩

/-! ## Troop numbers over the game -/

/-- A negative entry read against claim C5: `inicializarTerritorios` stores the `-3`
read for territory 3; after one resolved attack of territory 1 on territory 2 the map
still has territory 3 at `-3`, below 0. -/
theorem main_tropas_negativas :
    tropas (inicializarTerritorios alocarMapa cadastroNegativo) 3 = -3 ∧
    ataquesResolvidos (main cadastroNegativo [⟨1, 1, 2, 5, 0⟩]).2 = 1 ∧
    tropas (main cadastroNegativo [⟨1, 1, 2, 5, 0⟩]).1 3 = -3 ∧
    ∃ t ∈ (main cadastroNegativo [⟨1, 1, 2, 5, 0⟩]).1, t.num_tropas < 0 := by
  decide

/-- The claim C5, amended to non-negative entries: when the five troop numbers that
initialisation stored are all in `0..INT_MAX`, then after any sequence of rounds of
the loop of `main`, with any options, any numbers read in `faseDeAtaque` and any dice,
no territory of the map has a troop number below 0 (and none is above `INT_MAX`). -/
theorem main_tropas_nao_negativas (entrada : Nat → Cadastro)
    (h : ∀ i, i < NUM_TERRITORIOS →
      0 ≤ (entrada i).num_tropas ∧ (entrada i).num_tropas ≤ INT_MAX)
    (rodadas : List Rodada) :
    ∀ t ∈ (main entrada rodadas).1, 0 ≤ t.num_tropas ∧ t.num_tropas ≤ INT_MAX := by
  unfold main
  apply lacoPrincipal_faixa INT_MAX (by decide) rodadas
  · rw [inicializarTerritorios_alocarMapa]
    simp
  · rw [inicializarTerritorios_alocarMapa]
    intro t ht
    simp only [List.mem_map, List.mem_range] at ht
    obtain ⟨i, hi, rfl⟩ := ht
    exact h i hi

/-- An instance of `main_tropas_nao_negativas`: from the entries 5, 1, 3, 3, 3, after a
conquest of territory 2 by territory 1 and a further attack, no troop number is below 0. -/
theorem main_tropas_nao_negativas_cenario :
    (∀ i, i < NUM_TERRITORIOS →
      0 ≤ (cadastroCenario i).num_tropas ∧ (cadastroCenario i).num_tropas ≤ INT_MAX) ∧
    ∀ t ∈ (main cadastroCenario [⟨1, 1, 2, 5, 0⟩, ⟨1, 3, 2, 5, 0⟩]).1,
      0 ≤ t.num_tropas ∧ t.num_tropas ≤ INT_MAX :=
  have h : ∀ i, i < NUM_TERRITORIOS →
      0 ≤ (cadastroCenario i).num_tropas ∧ (cadastroCenario i).num_tropas ≤ INT_MAX := by
    intro i _
    unfold cadastroCenario
    split_ifs <;> decide
  ⟨h, main_tropas_nao_negativas cadastroCenario h [⟨1, 1, 2, 5, 0⟩, ⟨1, 3, 2, 5, 0⟩]⟩

/-- A win without conquest read against claim C6: in the scenario territory 1
(5 troops) attacks territory 3 (3 troops) and wins with 6 against 1; the turn is
resolved, the defender goes down to 2 and the attacker still has 5 troops, so the
attacker's troop number is not lower than before. -/
theorem faseDeAtaque_vitoria_atacante_intacto :
    dado 5 > dado 0 ∧ 2 ≤ tropas cenario 1 ∧
    ataquesResolvidos (faseDeAtaque cenario 1 3 5 0).2 = 1 ∧
    tropas (faseDeAtaque cenario 1 3 5 0).1 3 = 2 ∧
    tropas (faseDeAtaque cenario 1 3 5 0).1 1 = 5 ∧
    ¬ tropas (faseDeAtaque cenario 1 3 5 0).1 1 < tropas cenario 1 := by
  decide

/-- The claim C6, amended in the attacker-win branch: troop loss per resolved attack.
For a map of five territories, attacker and defender numbers in `1..5`, an attacker
with at least 2 troops and any dice: in the tie or loss branch the attacker's troop
number is lower by exactly 1 and a defender that is another territory keeps its
number; in the attacker-win branch exactly one number falls, by exactly 1: the
defender's when the defender had at least 2 troops (an attacker that is another
territory keeps its number), and the attacker's when the defender had at most 1 troop
and more than `INT_MIN`, in which case the defender's number becomes exactly 1. -/
theorem faseDeAtaque_perda_de_tropas (m : Mapa) (hm : m.length = NUM_TERRITORIOS)
    (a d : Int) (ha : 1 ≤ a) (ha5 : a ≤ (NUM_TERRITORIOS : Int)) (ht : 2 ≤ tropas m a)
    (hd : 1 ≤ d) (hd5 : d ≤ (NUM_TERRITORIOS : Int)) (r1 r2 : Nat) :
    (dado r1 ≤ dado r2 →
      tropas (faseDeAtaque m a d r1 r2).1 a = tropas m a - 1 ∧
      (d ≠ a → tropas (faseDeAtaque m a d r1 r2).1 d = tropas m d)) ∧
    (dado r1 > dado r2 →
      (2 ≤ tropas m d →
        tropas (faseDeAtaque m a d r1 r2).1 d = tropas m d - 1 ∧
        (a ≠ d → tropas (faseDeAtaque m a d r1 r2).1 a = tropas m a)) ∧
      (tropas m d ≤ 1 → INT_MIN < tropas m d →
        a ≠ d ∧
        tropas (faseDeAtaque m a d r1 r2).1 a = tropas m a - 1 ∧
        tropas (faseDeAtaque m a d r1 r2).1 d = 1)) := by
  rw [faseDeAtaque_resolvido m a d r1 r2 ha ha5 ht hd hd5]
  rw [← hm] at ha5 hd5
  have hta := INT_MIN_lt_of_ge_two _ ht
  refine ⟨?_, ?_⟩
  · intro hdados
    have ea := territorioEm_simularAtaque m a d a r1 r2 ha ha5 hd hd5 ha
    have ed := territorioEm_simularAtaque m a d d r1 r2 ha ha5 hd hd5 hd
    rw [decrementarInt_of_gt _ hta] at ea ed
    simp only [tropas, ea, ed, hdados, if_true]
    refine ⟨trivial, ?_⟩
    intro hda
    simp only [hda, if_false]
  · intro hdados
    have hnle : ¬ dado r1 ≤ dado r2 := not_le.mpr hdados
    refine ⟨?_, ?_⟩
    · intro h2
      have htd := INT_MIN_lt_of_ge_two _ h2
      have ea := territorioEm_simularAtaque_exato m a d a r1 r2 ha ha5 hd hd5 ha hta htd
      have ed := territorioEm_simularAtaque_exato m a d d r1 r2 ha ha5 hd hd5 hd hta htd
      have hnt : ¬ tropas m d - 1 ≤ 0 := by omega
      simp only [tropas, ea, ed, hnle, if_false, if_true]
      simp only [tropas] at hnt
      simp only [hnt, if_false, true_and]
      intro had
      simp only [had, if_false]
    · intro h1 htd
      have ea := territorioEm_simularAtaque_exato m a d a r1 r2 ha ha5 hd hd5 ha hta htd
      have ed := territorioEm_simularAtaque_exato m a d d r1 r2 ha ha5 hd hd5 hd hta htd
      have hle : tropas m d - 1 ≤ 0 := by omega
      have had : a ≠ d := by
        intro e
        rw [e] at ht
        omega
      have hda : ¬ d = a := fun e => had e.symm
      simp only [tropas, ea, ed, hnle, if_false, if_true]
      simp only [tropas] at hle
      simp only [hle, had, hda, if_false, if_true]
      exact ⟨had, trivial, trivial⟩

/-- Instances of `faseDeAtaque_perda_de_tropas` on the scenario, territory 1 (5 troops)
attacking: a tie against territory 2 costs the attacker 1 troop; a win against
territory 3 (3 troops) costs the defender 1 troop; a win against territory 2 (1 troop)
costs the attacker 1 troop and leaves the defender at 1. -/
theorem faseDeAtaque_perda_de_tropas_cenario :
    cenario.length = NUM_TERRITORIOS ∧ 2 ≤ tropas cenario 1 ∧
    tropas (faseDeAtaque cenario 1 2 0 0).1 1 = tropas cenario 1 - 1 ∧
    tropas (faseDeAtaque cenario 1 3 5 0).1 3 = tropas cenario 3 - 1 ∧
    tropas (faseDeAtaque cenario 1 2 5 0).1 1 = tropas cenario 1 - 1 ∧
    tropas (faseDeAtaque cenario 1 2 5 0).1 2 = 1 :=
  ⟨rfl, by decide,
    ((faseDeAtaque_perda_de_tropas cenario rfl 1 2 (by decide) (by decide) (by decide)
      (by decide) (by decide) 0 0).1 (by decide)).1,
    (((faseDeAtaque_perda_de_tropas cenario rfl 1 3 (by decide) (by decide) (by decide)
      (by decide) (by decide) 5 0).2 (by decide)).1 (by decide)).1,
    (((faseDeAtaque_perda_de_tropas cenario rfl 1 2 (by decide) (by decide) (by decide)
      (by decide) (by decide) 5 0).2 (by decide)).2 (by decide) (by decide)).2.1,
    (((faseDeAtaque_perda_de_tropas cenario rfl 1 2 (by decide) (by decide) (by decide)
      (by decide) (by decide) 5 0).2 (by decide)).2 (by decide) (by decide)).2.2⟩

/-- The claim C7: every territory keeps at least 1 troop over a turn.  For a map of
five territories with at least 1 troop each, any two integers read as attacker and defender
(in range or not, equal or not) and any dice, every territory of the map
after `faseDeAtaque` has at least 1 troop; in particular, in a resolved turn whose defender
reaches 0 troops inside `simularAtaque` (attacker die higher, defender at 1
troop), the defender has exactly 1 troop when the call returns. -/
theorem faseDeAtaque_preserva_tropas_minimas (m : Mapa) (hm : m.length = NUM_TERRITORIOS)
    (hinv : ∀ t ∈ m, 1 ≤ t.num_tropas) (a d : Int) (r1 r2 : Nat) :
    (∀ t ∈ (faseDeAtaque m a d r1 r2).1, 1 ≤ t.num_tropas) ∧
    (1 ≤ a → a ≤ (NUM_TERRITORIOS : Int) → 2 ≤ tropas m a →
      1 ≤ d → d ≤ (NUM_TERRITORIOS : Int) →
      dado r1 > dado r2 → tropas (decrementarTropas m d) d = 0 →
      tropas (faseDeAtaque m a d r1 r2).1 d = 1) := by
  refine ⟨faseDeAtaque_limite 1 (le_refl 1) m hm hinv a d r1 r2, ?_⟩
  intro ha ha5 ht hd hd5 hdados hzero
  rw [faseDeAtaque_resolvido m a d r1 r2 ha ha5 ht hd hd5]
  rw [← hm] at ha5 hd5
  rw [tropas_decrementarTropas m d hd hd5] at hzero
  have hnle : ¬ dado r1 ≤ dado r2 := not_le.mpr hdados
  have hle : decrementarInt (tropas m d) ≤ 0 := le_of_eq hzero
  have had : ¬ a = d := by
    intro e
    rw [e] at ht
    rw [decrementarInt_of_ge_two _ ht] at hzero
    omega
  have hda : ¬ d = a := fun e => had e.symm
  unfold tropas
  rw [territorioEm_simularAtaque m a d d r1 r2 ha ha5 hd hd5 hd]
  simp only [hnle, hle, had, hda, if_false, if_true]

/-- An instance of `faseDeAtaque_preserva_tropas_minimas`: in the scenario every
territory has at least 1 troop, and after territory 1 conquers territory 2 (which
reaches 0 inside the call) every territory still has at least 1 troop and territory 2
has exactly 1. -/
theorem faseDeAtaque_preserva_tropas_minimas_cenario :
    cenario.length = NUM_TERRITORIOS ∧ (∀ t ∈ cenario, 1 ≤ t.num_tropas) ∧
    tropas (decrementarTropas cenario 2) 2 = 0 ∧
    (∀ t ∈ (faseDeAtaque cenario 1 2 5 0).1, 1 ≤ t.num_tropas) ∧
    tropas (faseDeAtaque cenario 1 2 5 0).1 2 = 1 :=
  ⟨rfl, by decide, by decide,
    (faseDeAtaque_preserva_tropas_minimas cenario rfl (by decide) 1 2 5 0).1,
    (faseDeAtaque_preserva_tropas_minimas cenario rfl (by decide) 1 2 5 0).2 (by decide)
      (by decide) (by decide) (by decide) (by decide) (by decide) (by decide)⟩

/-! ## The dice -/

/-- The claim C8: both dice are six-sided.  For every value `r` of `rand()` the die
`r % 6 + 1` is in `1..6`, each of the six values `1..6` is the die of some `r`, already
among `r = 0..5`, and the two dice `simularAtaque` rolls and prints are `dado r1` and
`dado r2`. -/
theorem dado_seis_faces :
    (∀ r : Nat, 1 ≤ dado r ∧ dado r ≤ 6) ∧
    dado 0 = 1 ∧ dado 1 = 2 ∧ dado 2 = 3 ∧ dado 3 = 4 ∧ dado 4 = 5 ∧ dado 5 = 6 ∧
    (∀ (a d : Int) (m : Mapa) (r1 r2 : Nat), (simularAtaque a d m r1 r2).2 =
      [Mensagem.dadoAtacante (dado r1), Mensagem.dadoAtacado (dado r2)]) := by
  refine ⟨?_, by decide, by decide, by decide, by decide, by decide, by decide, ?_⟩
  · intro r
    unfold dado
    omega
  · intro a d m r1 r2
    unfold simularAtaque
    simp only []
    split
    · rfl
    · split <;> rfl

/-! ## The troop total as a measure -/

/-- The claim C9: the troop total is a strictly decreasing measure.  For a map of five
territories with at least 1 troop each: a turn of `faseDeAtaque` that passes the
checks (both numbers in `1..5`, attacker with at least 2 troops) lowers the sum of the
five troop numbers by exactly 1 for all dice, conquest or not; a rejected turn leaves
the sum as it was; hence over any rounds of the loop of `main` at most
(initial sum - 5) attacks are resolved. -/
theorem somaTropas_medida_decrescente (m : Mapa) (hm : m.length = NUM_TERRITORIOS)
    (hinv : ∀ t ∈ m, 1 ≤ t.num_tropas) :
    (∀ (a d : Int) (r1 r2 : Nat),
      1 ≤ a → a ≤ (NUM_TERRITORIOS : Int) → 2 ≤ tropas m a →
      1 ≤ d → d ≤ (NUM_TERRITORIOS : Int) →
      somaTropas (faseDeAtaque m a d r1 r2).1 = somaTropas m - 1) ∧
    (∀ (a d : Int) (r1 r2 : Nat),
      ¬ (1 ≤ a ∧ a ≤ (NUM_TERRITORIOS : Int) ∧ 2 ≤ tropas m a ∧
          1 ≤ d ∧ d ≤ (NUM_TERRITORIOS : Int)) →
      somaTropas (faseDeAtaque m a d r1 r2).1 = somaTropas m) ∧
    (∀ rodadas : List Rodada,
      (ataquesResolvidos (lacoPrincipal m rodadas).2 : Int) ≤
        somaTropas m - (NUM_TERRITORIOS : Int)) := by
  refine ⟨?_, ?_, ?_⟩
  · intro a d r1 r2 ha ha5 ht hd hd5
    have hs := somaTropas_faseDeAtaque m hm hinv a d r1 r2
    rcases faseDeAtaque_casos m a d r1 r2 with ⟨_, _, hn⟩ | ⟨hv, _, _⟩
    · rw [hn] at hs
      push_cast at hs
      omega
    · exact absurd ⟨ha, ha5, ht, hd, hd5⟩ hv
  · intro a d r1 r2 hv
    rcases faseDeAtaque_casos m a d r1 r2 with ⟨hv', _, _⟩ | ⟨_, h, _⟩
    · exact absurd hv' hv
    · rw [h]
  · intro rodadas
    have hs := somaTropas_lacoPrincipal rodadas m hm hinv
    have hg := somaTropas_ge (lacoPrincipal m rodadas).1
      (by rw [length_lacoPrincipal, hm])
      (lacoPrincipal_limite 1 (le_refl 1) rodadas m hm hinv)
    omega

/-- Instances of `somaTropas_medida_decrescente` on the scenario (15 troops): the
conquest of territory 2 by territory 1 leaves 14 troops, a turn with attacker number 0
leaves 15, and two rounds resolve at most 10 attacks. -/
theorem somaTropas_medida_decrescente_cenario :
    cenario.length = NUM_TERRITORIOS ∧ (∀ t ∈ cenario, 1 ≤ t.num_tropas) ∧
    somaTropas cenario = 15 ∧
    somaTropas (faseDeAtaque cenario 1 2 5 0).1 = somaTropas cenario - 1 ∧
    somaTropas (faseDeAtaque cenario 0 2 5 0).1 = somaTropas cenario ∧
    (ataquesResolvidos
      (lacoPrincipal cenario [⟨1, 1, 2, 5, 0⟩, ⟨1, 3, 2, 5, 0⟩]).2 : Int) ≤
        somaTropas cenario - (NUM_TERRITORIOS : Int) :=
  ⟨rfl, by decide, by decide,
    (somaTropas_medida_decrescente cenario rfl (by decide)).1 1 2 5 0 (by decide)
      (by decide) (by decide) (by decide) (by decide),
    (somaTropas_medida_decrescente cenario rfl (by decide)).2.1 0 2 5 0 (by decide),
    (somaTropas_medida_decrescente cenario rfl (by decide)).2.2 _⟩

/-! ## Self-attack -/

/-- The claim C10: a self-attack is accepted and always costs one troop.  For a map of
five territories and a number `i` in `1..5` whose territory has at least 2 troops, the
turn of `faseDeAtaque` with attacker and defender both `i` is not rejected (the output
is the two questions and the two die lines); for all dice it leaves territory `i` with
exactly one troop fewer and the same colour and name, does not take the conquest path,
and leaves the other four territories as they were. -/
theorem faseDeAtaque_proprio_territorio (m : Mapa) (hm : m.length = NUM_TERRITORIOS)
    (i : Int) (hi : 1 ≤ i) (hi5 : i ≤ (NUM_TERRITORIOS : Int)) (ht : 2 ≤ tropas m i)
    (r1 r2 : Nat) :
    (faseDeAtaque m i i r1 r2).2 =
      [Mensagem.perguntaAtacante, Mensagem.perguntaAtacado,
        Mensagem.dadoAtacante (dado r1), Mensagem.dadoAtacado (dado r2)] ∧
    (faseDeAtaque m i i r1 r2).1 = (simularAtaque i i m r1 r2).1 ∧
    (faseDeAtaque m i i r1 r2).1.length = NUM_TERRITORIOS ∧
    territorioEm (faseDeAtaque m i i r1 r2).1 i = ⟨nomeDe m i, corDe m i, tropas m i - 1⟩ ∧
    ¬ caminhoConquista i m r1 r2 ∧
    (∀ k : Int, 1 ≤ k → k ≤ (NUM_TERRITORIOS : Int) → k ≠ i →
      territorioEm (faseDeAtaque m i i r1 r2).1 k = territorioEm m k) := by
  rw [faseDeAtaque_resolvido m i i r1 r2 hi hi5 ht hi hi5]
  rw [← hm] at hi5
  have hnt : ¬ tropas m i - 1 ≤ 0 := by omega
  have hti := INT_MIN_lt_of_ge_two _ ht
  refine ⟨rfl, rfl, by rw [length_simularAtaque, hm], ?_, ?_, ?_⟩
  · simp only [territorioEm_simularAtaque_exato m i i i r1 r2 hi hi5 hi hi5 hi hti hti, hnt,
      if_true, if_false]
    split <;> rfl
  · intro hc
    rw [caminhoConquista, tropas_decrementarTropas m i hi hi5,
      decrementarInt_of_ge_two _ ht] at hc
    exact hnt hc.2
  · intro k hk _ hki
    simp only [territorioEm_simularAtaque_exato m i i k r1 r2 hi hi5 hi hi5 hk hti hti, hnt,
      hki, if_false]
    split <;> rfl

/-- Instances of `faseDeAtaque_proprio_territorio` on the scenario: territory 1
(A, Red, 5 troops) attacks itself and is left with 4 troops, Red, named A, whether the
attacker die is the higher one or not; territory 2 is untouched. -/
theorem faseDeAtaque_proprio_territorio_cenario :
    cenario.length = NUM_TERRITORIOS ∧ 2 ≤ tropas cenario 1 ∧
    territorioEm (faseDeAtaque cenario 1 1 5 0).1 1 = ⟨"A", "Red", 4⟩ ∧
    territorioEm (faseDeAtaque cenario 1 1 0 5).1 1 = ⟨"A", "Red", 4⟩ ∧
    territorioEm (faseDeAtaque cenario 1 1 5 0).1 2 = ⟨"B", "Blue", 1⟩ :=
  ⟨rfl, by decide,
    (faseDeAtaque_proprio_territorio cenario rfl 1 (by decide) (by decide) (by decide)
      5 0).2.2.2.1.trans (by decide),
    (faseDeAtaque_proprio_territorio cenario rfl 1 (by decide) (by decide) (by decide)
      0 5).2.2.2.1.trans (by decide),
    ((faseDeAtaque_proprio_territorio cenario rfl 1 (by decide) (by decide) (by decide)
      5 0).2.2.2.2.2 2 (by decide) (by decide) (by decide)).trans (by decide)⟩

end War
